import Mathlib

/-!
Verification development for the fusion360-mcp routing/normalization/fallback
core: a shallow embedding of `mcp_server/router.py`, the pydantic schemas in
`mcp_server/schema/`, and the `_parse_json` payload extractors of the four
LLM provider adapters, together with theorems settling the spec claims.

Python exceptions are modelled with `Except`, pydantic field validation as
smart constructors returning `Except`, and the adapters' network calls as an
oracle (`RouterEnv.gen`) indexed by a global adapter-call counter.  Floats
are modelled as `Rat`.
-/

/-- A JSON value, as produced by Python's `json.loads`.  Numbers are modelled
as rationals (integer and decimal literals); Python dicts are association
lists in insertion order (lookups take the last binding, as a Python dict
built by the parser keeps the last value for a duplicated key). -/
inductive Json where
  | null : Json
  | bool (b : Bool) : Json
  | num (q : Rat) : Json
  | str (s : String) : Json
  | arr (elems : List Json) : Json
  | obj (fields : List (String × Json)) : Json

/-- The character `u007b` (left curly brace). -/
def lbraceChar : Char := Char.ofNat 123

/-- The character `u007d` (right curly brace). -/
def rbraceChar : Char := Char.ofNat 125

/-- The double-quote character. -/
def quoteChar : Char := Char.ofNat 34

/-- The backslash character. -/
def backslashChar : Char := Char.ofNat 92

/-- JSON whitespace, as accepted between tokens by `json.loads`. -/
def isJsonWs (c : Char) : Bool := c = ' ' || c = '\t' || c = '\n' || c = '\r'

/-- Skip JSON whitespace. -/
def skipWs (l : List Char) : List Char := l.dropWhile isJsonWs

/-- ASCII decimal digit test. -/
def isDigitChar (c : Char) : Bool := '0' ≤ c && c ≤ '9'

/-- Numeric value of an ASCII digit. -/
def digitVal (c : Char) : Nat := c.toNat - '0'.toNat

/-- Parse a run of decimal digits (most significant first), returning the
accumulated value, the number of digits, and the rest of the input. -/
def parseDigits : List Char → Nat → Nat → (Nat × Nat × List Char)
  | [], acc, n => (acc, n, [])
  | c :: rest, acc, n =>
    if isDigitChar c then parseDigits rest (acc * 10 + digitVal c) (n + 1)
    else (acc, n, c :: rest)

/-- Parse a JSON number (optional minus, integer part, optional fractional
part).  Exponent notation is not needed by any claim and is not modelled. -/
def parseNumber (l : List Char) : Option (Json × List Char) :=
  let (neg, l1) := match l with
    | '-' :: rest => (true, rest)
    | _ => (false, l)
  let (ip, n, l2) := parseDigits l1 0 0
  if n = 0 then none
  else
    match l2 with
    | '.' :: rest =>
      let (fp, m, l3) := parseDigits rest 0 0
      if m = 0 then none
      else
        let mag : Rat := (ip : Rat) + (fp : Rat) / ((10 : Rat) ^ m)
        some (.num (if neg then -mag else mag), l3)
    | _ =>
      let mag : Rat := (ip : Rat)
      some (.num (if neg then -mag else mag), l2)

/-- Parse the body of a JSON string after the opening quote, handling the
common escape sequences (`uXXXX` escapes are not needed by any claim and are
not modelled). -/
def parseStringBody : Nat → List Char → Option (String × List Char)
  | 0, _ => none
  | _, [] => none
  | fuel + 1, c :: rest =>
    if c = quoteChar then some ("", rest)
    else if c = backslashChar then
      match rest with
      | [] => none
      | e :: rest2 =>
        let esc : Option Char :=
          if e = quoteChar then some quoteChar
          else if e = backslashChar then some backslashChar
          else if e = '/' then some '/'
          else if e = 'n' then some '\n'
          else if e = 't' then some '\t'
          else if e = 'r' then some '\r'
          else if e = 'b' then some (Char.ofNat 8)
          else if e = 'f' then some (Char.ofNat 12)
          else none
        match esc with
        | none => none
        | some ch =>
          match parseStringBody fuel rest2 with
          | none => none
          | some (s, r) => some (⟨ch :: s.data⟩, r)
    else
      match parseStringBody fuel rest with
      | none => none
      | some (s, r) => some (⟨c :: s.data⟩, r)

mutual

/-- Parse one JSON value (fuel-indexed recursive descent). -/
def parseVal : Nat → List Char → Option (Json × List Char)
  | 0, _ => none
  | fuel + 1, l =>
    match skipWs l with
    | [] => none
    | c :: rest =>
      if c = 'n' then
        match rest with
        | 'u' :: 'l' :: 'l' :: r => some (.null, r)
        | _ => none
      else if c = 't' then
        match rest with
        | 'r' :: 'u' :: 'e' :: r => some (.bool true, r)
        | _ => none
      else if c = 'f' then
        match rest with
        | 'a' :: 'l' :: 's' :: 'e' :: r => some (.bool false, r)
        | _ => none
      else if c = quoteChar then
        match parseStringBody (rest.length + 1) rest with
        | none => none
        | some (s, r) => some (.str s, r)
      else if c = '[' then
        match skipWs rest with
        | ']' :: r => some (.arr [], r)
        | l2 => match parseArrTail fuel l2 with
          | none => none
          | some (es, r) => some (.arr es, r)
      else if c = lbraceChar then
        match skipWs rest with
        | l2 =>
          if l2.headD ' ' = rbraceChar then some (.obj [], l2.tail)
          else match parseObjTail fuel l2 with
            | none => none
            | some (fs, r) => some (.obj fs, r)
      else if c = '-' || isDigitChar c then parseNumber (c :: rest)
      else none

/-- Parse the elements of a JSON array (positioned at the first element). -/
def parseArrTail : Nat → List Char → Option (List Json × List Char)
  | 0, _ => none
  | fuel + 1, l =>
    match parseVal fuel l with
    | none => none
    | some (j, r) =>
      match skipWs r with
      | ',' :: r2 =>
        match parseArrTail fuel r2 with
        | none => none
        | some (es, r3) => some (j :: es, r3)
      | ']' :: r2 => some ([j], r2)
      | _ => none

/-- Parse the fields of a JSON object (positioned at the first key). -/
def parseObjTail : Nat → List Char → Option (List (String × Json) × List Char)
  | 0, _ => none
  | fuel + 1, l =>
    match skipWs l with
    | c :: rest =>
      if c = quoteChar then
        match parseStringBody (rest.length + 1) rest with
        | none => none
        | some (k, r) =>
          match skipWs r with
          | ':' :: r2 =>
            match parseVal fuel r2 with
            | none => none
            | some (v, r3) =>
              match skipWs r3 with
              | ',' :: r4 =>
                match parseObjTail fuel r4 with
                | none => none
                | some (fs, r5) => some ((k, v) :: fs, r5)
              | d :: r4 =>
                if d = rbraceChar then some ([(k, v)], r4) else none
              | _ => none
          | _ => none
      else none
    | [] => none

end

/-- Model of Python's `json.loads`: parse one JSON document, requiring only
whitespace after it; `none` models a raised `json.JSONDecodeError`. -/
def json_loads (s : String) : Option Json :=
  match parseVal (2 * s.data.length + 2) s.data with
  | some (j, rest) => if skipWs rest = [] then some j else none
  | none => none

/-- Python `str.find(c)`: index of the first occurrence, `none` for `-1`. -/
def pyFind (l : List Char) (c : Char) : Option Nat := l.findIdx? (· = c)

/-- Python `str.rfind(c)`: index of the last occurrence, `none` for `-1`. -/
def pyRFind (l : List Char) (c : Char) : Option Nat :=
  match (l.reverse).findIdx? (· = c) with
  | none => none
  | some i => some (l.length - 1 - i)

/-- Python slice `text[start:end+1]` for the span from the first brace
to the last brace, as computed by the adapters' `_parse_json`; `none` when
either `find` returned `-1`.  (A Python slice with `end+1 ≤ start` is the
empty string, which `Nat` subtraction reproduces.) -/
def braceSubstring (l : List Char) : Option (List Char) :=
  match pyFind l lbraceChar, pyRFind l rbraceChar with
  | some s, some e => some ((l.drop s).take (e + 1 - s))
  | _, _ => none

/-- `OllamaClient._parse_json` (`ollama_client.py` lines 151-176): FIRST try
the substring from the first brace to the last brace (a `JSONDecodeError` is
caught, and if either brace is missing the first `try` falls through), THEN
try the entire text; on failure of both return `None`. -/
def ollama_parse_json (text : String) : Option Json :=
  match braceSubstring text.data with
  | some sub =>
    match json_loads ⟨sub⟩ with
    | some j => some j
    | none => json_loads text
  | none => json_loads text

/-- `OpenAIClient._parse_json` (`openai_client.py` lines 100-128): first try
the entire text, then the substring from the first brace to the last brace;
on failure of both return `None`.  `GeminiClient._parse_json` and
`ClaudeClient._parse_json` are line-for-line the same algorithm. -/
def openai_parse_json (text : String) : Option Json :=
  match json_loads text with
  | some j => some j
  | none =>
    match braceSubstring text.data with
    | some sub => json_loads ⟨sub⟩
    | none => none

/-- Stated from the spec's words (section 4.1): "(1) attempt to parse the
entire text as a single structured value; (2) on failure, scan for the first
left brace and the last right brace in the text and attempt to parse that
substring; on failure of both, the parsed payload is absent". -/
def specTwoStageParse (text : String) : Option Json :=
  match json_loads text with
  | some j => some j
  | none =>
    match braceSubstring text.data with
    | some sub => json_loads ⟨sub⟩
    | none => none

/-- The order the Ollama adapter actually implements: brace substring first,
whole text second (used by the amended wording of the payload claim). -/
def specSubstringFirstParse (text : String) : Option Json :=
  match braceSubstring text.data with
  | some sub =>
    match json_loads ⟨sub⟩ with
    | some j => some j
    | none => json_loads text
  | none => json_loads text

/-- Python truthiness of a JSON value (`None`, `False`, `0`, `""`, `[]` and
the empty dict are falsy). -/
def Json.truthy : Json → Bool
  | .null => false
  | .bool b => b
  | .num q => q != 0
  | .str s => s != ""
  | .arr es => !es.isEmpty
  | .obj fs => !fs.isEmpty

/-- Python truthiness of `result.get("json")` for an optional JSON value. -/
def pyTruthyJsonOpt : Option Json → Bool
  | none => false
  | some j => j.truthy

/-- Dict lookup on an association list: the LAST binding wins, as in a Python
dict built by assigning keys in order. -/
def jLookup (k : String) : List (String × Json) → Option Json
  | [] => none
  | (k2, v) :: rest =>
    match jLookup k rest with
    | some v2 => some v2
    | none => if k2 = k then some v else none

/-- Python `key in dict`. -/
def jMem (k : String) (fs : List (String × Json)) : Bool := (jLookup k fs).isSome

/-- A raised Python exception that can escape the router core: pydantic
raises `ValidationError` when a constructed model violates a field type. -/
inductive PyErr where
  | validationError (msg : String)
deriving DecidableEq, Repr

/-- `str(e)` for a captured Python error (an `Option String` models the
`last_error = None` initialisation; `str(None) = "None"`). -/
def pyStrOpt : Option String → String
  | none => "None"
  | some s => s

/-- `str(e)` of a modelled exception. -/
def pyErrMsg : PyErr → String
  | .validationError m => m

/-- The closed set of the `Literal` annotation on
`LLMResponseMetadata.provider` and `ModelParams.provider`
(`llm_response.py` line 15, `mcp_command.py` line 33). -/
def providerLiterals : List String := ["ollama", "openai", "gemini", "claude"]

/-- `LLMResponseMetadata` (`llm_response.py` lines 13-20).  The `timestamp`
field (wall-clock `datetime.now`) is outside the embedding. -/
structure LLMResponseMetadata where
  provider : String
  model : String
  tokens_used : Option Nat := none
  latency_ms : Option Rat := none
  temperature : Option Rat := none
deriving DecidableEq, Repr

/-- Pydantic construction of `LLMResponseMetadata`: the `provider` field is
`Literal["ollama", "openai", "gemini", "claude"]`, so construction with any
other string raises a `ValidationError`. -/
def mkLLMResponseMetadata (provider model : String) (tokens_used : Option Nat)
    (latency_ms temperature : Option Rat) : Except PyErr LLMResponseMetadata :=
  if provider ∈ providerLiterals then
    .ok { provider, model, tokens_used, latency_ms, temperature }
  else
    .error (.validationError ("LLMResponseMetadata.provider: " ++ provider))

/-- `LLMError` (`llm_response.py` lines 23-29). -/
structure LLMError where
  type : String
  message : String
  provider : String
  retry_count : Nat := 0
  recoverable : Bool := true
deriving DecidableEq, Repr

/-- `FusionAction` (`fusion_action.py` lines 82-103).  `params` is a
`Dict[str, Any]`, an open parameter bag. -/
structure FusionAction where
  action : String
  params : List (String × Json)
  explanation : Option String := none
  safety_checks : List String := []
  dependencies : List String := []

/-- `ActionSequence` (`fusion_action.py` lines 106-129). -/
structure ActionSequence where
  actions : List FusionAction
  total_steps : Int
  estimated_time_seconds : Option Rat := none

/-- `ClarifyingQuestion` (`llm_response.py` lines 32-36). -/
structure ClarifyingQuestion where
  question : String
  context : String
  suggestions : List String := []
deriving DecidableEq, Repr

/-- `LLMResponse` (`llm_response.py` lines 39-74). -/
structure LLMResponse where
  success : Bool
  provider : String
  model : String
  raw_output : String
  action : Option FusionAction := none
  action_sequence : Option ActionSequence := none
  clarifying_questions : List ClarifyingQuestion := []
  reasoning : Option String := none
  metadata : LLMResponseMetadata
  error : Option LLMError := none

/-- `MCPResponse` (`llm_response.py` lines 77-88).  All statuses the router
constructs are members of the `Literal` on the `status` field, so that
validation never fires and `status` is modelled as a plain string. -/
structure MCPResponse where
  status : String
  llm_response : Option LLMResponse := none
  message : String
  actions_to_execute : List FusionAction := []
  warnings : List String := []

/-- `DesignContext` (`mcp_command.py` lines 10-28). -/
structure DesignContext where
  active_component : String := "RootComponent"
  units : String := "mm"
  design_state : String := "empty"
  active_sketch : Option String := none
  material : Option String := none
  parameters : List (String × Json) := []
  geometry_count : List (String × Nat) := []

/-- `ModelParams` (`mcp_command.py` lines 31-49).  `provider` carries the
four-name `Literal`, enforced when the incoming command is validated, so
any `ModelParams` reaching the router satisfies
`provider ∈ providerLiterals`. -/
structure ModelParams where
  provider : String
  model : String
  prompt : String
  temperature : Rat := 7 / 10
  max_tokens : Option Int := some 2000

/-- `MCPCommand` (`mcp_command.py` lines 52-66). -/
structure MCPCommand where
  command : String
  params : Option ModelParams := none
  context : Option DesignContext := none
  action_data : Option (List (String × Json)) := none
  metadata : List (String × Json) := []

/-- Pydantic validation of a `List[str]` field value. -/
def strListOfJson : List Json → Except PyErr (List String)
  | [] => .ok []
  | .str s :: rest =>
    match strListOfJson rest with
    | .ok tail => .ok (s :: tail)
    | .error e => .error e
  | _ :: _ => .error (.validationError "str expected")

/-- Pydantic validation `FusionAction(**fields)`: `action` must be a string,
`params` a dict, `explanation` an optional string, `safety_checks` and
`dependencies` lists of strings (defaulting to `[]`); unknown keys are
ignored (pydantic default `extra` behaviour). -/
def explanationField (fields : List (String × Json)) : Except PyErr (Option String) :=
  match jLookup "explanation" fields with
  | none => .ok none
  | some .null => .ok none
  | some (.str s) => .ok (some s)
  | some _ => .error (.validationError "FusionAction.explanation")

/-- Pydantic validation of a `List[str]` field with default `[]`. -/
def strListField (name : String) (fields : List (String × Json)) : Except PyErr (List String) :=
  match jLookup name fields with
  | none => .ok []
  | some (.arr es) => strListOfJson es
  | some _ => .error (.validationError "FusionAction.list field")

def FusionAction.validate (fields : List (String × Json)) : Except PyErr FusionAction :=
  match jLookup "action" fields with
  | some (.str action) =>
    match jLookup "params" fields with
    | some (.obj params) =>
      match explanationField fields with
      | .ok explanation =>
        match strListField "safety_checks" fields with
        | .ok safety_checks =>
          match strListField "dependencies" fields with
          | .ok dependencies =>
            .ok { action, params, explanation, safety_checks, dependencies }
          | .error e => .error e
        | .error e => .error e
      | .error e => .error e
    | some _ => .error (.validationError "FusionAction.params")
    | none => .error (.validationError "FusionAction.params missing")
  | some _ => .error (.validationError "FusionAction.action")
  | none => .error (.validationError "FusionAction.action missing")

/-- Pydantic validation of each element of a `List[FusionAction]` field. -/
def actionsOfJson : List Json → Except PyErr (List FusionAction)
  | [] => .ok []
  | .obj fs :: rest =>
    match FusionAction.validate fs with
    | .ok a =>
      match actionsOfJson rest with
      | .ok tail => .ok (a :: tail)
      | .error e => .error e
    | .error e => .error e
  | _ :: _ => .error (.validationError "FusionAction expected")

/-- Pydantic validation `ActionSequence(**fields)`: `actions` a list of
actions, `total_steps` an integer (an integral JSON number), and an optional
`estimated_time_seconds` number. -/
def estField (fields : List (String × Json)) : Except PyErr (Option Rat) :=
  match jLookup "estimated_time_seconds" fields with
  | none => .ok none
  | some .null => .ok none
  | some (.num q) => .ok (some q)
  | some _ => .error (.validationError "ActionSequence.estimated_time_seconds")

def ActionSequence.validate (fields : List (String × Json)) : Except PyErr ActionSequence :=
  match jLookup "actions" fields with
  | some (.arr es) =>
    match actionsOfJson es with
    | .ok actions =>
      match jLookup "total_steps" fields with
      | some (.num q) =>
        if q.den = 1 then
          match estField fields with
          | .ok est => .ok { actions, total_steps := q.num, estimated_time_seconds := est }
          | .error e => .error e
        else .error (.validationError "ActionSequence.total_steps")
      | some _ => .error (.validationError "ActionSequence.total_steps")
      | none => .error (.validationError "ActionSequence.total_steps missing")
    | .error e => .error e
  | some _ => .error (.validationError "ActionSequence.actions")
  | none => .error (.validationError "ActionSequence.actions missing")

/-- Serialisation of an optional string field (pydantic dumps `None` as
JSON `null`). -/
def optStrJson : Option String → Json
  | none => .null
  | some s => .str s

/-- Serialisation of an optional number field. -/
def optRatJson : Option Rat → Json
  | none => .null
  | some q => .num q

/-- Pydantic serialisation of a `FusionAction` (field order as declared). -/
def FusionAction.toJson (a : FusionAction) : Json :=
  .obj [("action", .str a.action), ("params", .obj a.params),
        ("explanation", optStrJson a.explanation),
        ("safety_checks", .arr (a.safety_checks.map .str)),
        ("dependencies", .arr (a.dependencies.map .str))]

/-- Pydantic serialisation of an `ActionSequence`. -/
def ActionSequence.toJson (s : ActionSequence) : Json :=
  .obj [("actions", .arr (s.actions.map FusionAction.toJson)),
        ("total_steps", .num (s.total_steps : Rat)),
        ("estimated_time_seconds", optRatJson s.estimated_time_seconds)]

/-- Re-parsing a serialised `ActionSequence` (pydantic validation of the
whole dumped document). -/
def ActionSequence.fromJson (j : Json) : Except PyErr ActionSequence :=
  match j with
  | .obj fs => ActionSequence.validate fs
  | _ => .error (.validationError "dict expected")

/-- `Config` (`utils/config_loader.py` lines 20-57), restricted to the fields
the router reads. -/
structure Config where
  ollama_url : String := "http://localhost:11434"
  openai_api_key : Option String := none
  gemini_api_key : Option String := none
  claude_api_key : Option String := none
  default_model : String := "openai:gpt-4o-mini"
  fallback_chain : List String := []
  timeout_seconds : Nat := 30
  max_retries : Nat := 3
  retry_delay : Rat := 1
deriving DecidableEq, Repr

/-- Python truthiness of an optional string (`None` and `""` are falsy). -/
def pyTruthyStrOpt : Option String → Bool
  | none => false
  | some s => s != ""

/-- The providers for which `MCPRouter.__init__` (`router.py` lines 18-53)
installs a client, in dict insertion order. -/
def mkClients (cfg : Config) : List String :=
  (if cfg.ollama_url != "" then ["ollama"] else []) ++
  (if pyTruthyStrOpt cfg.openai_api_key then ["openai"] else []) ++
  (if pyTruthyStrOpt cfg.gemini_api_key then ["gemini"] else []) ++
  (if pyTruthyStrOpt cfg.claude_api_key then ["claude"] else [])

/-- The dict a provider adapter's `generate` returns on success (the
`provider` / `model` / `output` / `json` / `tokens_used` / `latency_ms`
fields every client builds). -/
structure GenDict where
  provider : String
  model : String
  output : String
  json : Option Json := none
  tokens_used : Option Nat := none
  latency_ms : Option Rat := none

/-- The arguments of one `client.generate(...)` invocation. -/
structure AdapterCall where
  provider : String
  model : String
  prompt : String
  system_prompt : Option String
  temperature : Rat
  max_tokens : Option Int

/-- Observable events of a route call: adapter invocations and the
`asyncio.sleep` suspensions of the retry loop. -/
inductive Ev where
  | call (c : AdapterCall)
  | sleep (d : Rat)

/-- The router's environment: the installed clients table and an oracle for
the outcome of the n-th adapter call overall (`.error` models a raised
exception from the client) and for each client's `list_models`. -/
structure RouterEnv where
  clients : List String
  gen : Nat → AdapterCall → Except String GenDict
  list_models : String → Except String (List String)

/-- Number of adapter calls in an event list. -/
def ncalls (tr : List Ev) : Nat :=
  tr.countP (fun e => match e with | .call _ => true | .sleep _ => false)

/-- The action extraction of `_generate_with_retry` (`router.py` lines
210-221): only run when `result.get("json")` is truthy; an `ActionSequence`
when the payload has an `"actions"` key, a single `FusionAction` when it has
an `"action"` key; any pydantic failure (or a non-dict payload, whose
membership test or `**`-unpacking raises) is caught and leaves both empty. -/
def parseActionFields (j : Json) : Option FusionAction × Option ActionSequence :=
  match j with
  | .obj fs =>
    if jMem "actions" fs then
      match ActionSequence.validate fs with
      | .ok s => (none, some s)
      | .error _ => (none, none)
    else if jMem "action" fs then
      match FusionAction.validate fs with
      | .ok a => (some a, none)
      | .error _ => (none, none)
    else (none, none)
  | _ => (none, none)

/-- The failure value built after the retry loop exhausts
(`router.py` lines 245-259). -/
def mkGenerationFailed (cfg : Config) (c : AdapterCall) (last_error : Option String) :
    Except PyErr LLMResponse :=
  match mkLLMResponseMetadata c.provider c.model none none none with
  | .error e => .error e
  | .ok md =>
    .ok { success := false, provider := c.provider, model := c.model, raw_output := "",
          metadata := md,
          error := some { type := "generation_failed", message := pyStrOpt last_error,
                          provider := c.provider, retry_count := cfg.max_retries,
                          recoverable := true } }

/-- The `for attempt in range(max_retries)` loop of `_generate_with_retry`
(`router.py` lines 200-243), with `remaining = max_retries - attempt`.  A
successful adapter call returns immediately; a raised adapter error is
recorded and, unless this was the final attempt, a sleep of `retry_delay`
precedes the next attempt.  A `ValidationError` from building the success
response's metadata is raised inside the `try` block, so it is caught and
consumes an attempt like any other failure. -/
def attemptLoop (cfg : Config) (env : RouterEnv) (c : AdapterCall) :
    Nat → Nat → Nat → Option String → List Ev × Except PyErr LLMResponse
  | _, 0, _, last_error => ([], mkGenerationFailed cfg c last_error)
  | n0, remaining + 1, attempt, _ =>
    match env.gen n0 c with
    | .ok result =>
      let acts := if pyTruthyJsonOpt result.json then
          parseActionFields (result.json.getD .null)
        else (none, none)
      match mkLLMResponseMetadata result.provider result.model result.tokens_used
          result.latency_ms (some c.temperature) with
      | .ok md =>
        ([.call c],
         .ok { success := true, provider := result.provider, model := result.model,
               raw_output := result.output, action := acts.1, action_sequence := acts.2,
               metadata := md })
      | .error e =>
        if attempt < cfg.max_retries - 1 then
          match attemptLoop cfg env c (n0 + 1) remaining (attempt + 1) (some (pyErrMsg e)) with
          | (tr, r) => (.call c :: .sleep cfg.retry_delay :: tr, r)
        else
          match attemptLoop cfg env c (n0 + 1) remaining (attempt + 1) (some (pyErrMsg e)) with
          | (tr, r) => (.call c :: tr, r)
    | .error msg =>
      if attempt < cfg.max_retries - 1 then
        match attemptLoop cfg env c (n0 + 1) remaining (attempt + 1) (some msg) with
        | (tr, r) => (.call c :: .sleep cfg.retry_delay :: tr, r)
      else
        match attemptLoop cfg env c (n0 + 1) remaining (attempt + 1) (some msg) with
        | (tr, r) => (.call c :: tr, r)

/-- `MCPRouter._generate_with_retry` (`router.py` lines 159-259), starting
with `n0` adapter calls already made.  A provider with no installed client
returns a `provider_not_available` failure without any adapter call — but
building that response constructs `LLMResponseMetadata(provider=provider)`,
which raises `ValidationError` when the provider string is outside the
four-name `Literal`. -/
def generate_with_retry (cfg : Config) (env : RouterEnv) (n0 : Nat)
    (provider model prompt : String) (system_prompt : Option String)
    (temperature : Rat) (max_tokens : Option Int) : List Ev × Except PyErr LLMResponse :=
  if provider ∈ env.clients then
    attemptLoop cfg env
      { provider, model, prompt, system_prompt, temperature, max_tokens }
      n0 cfg.max_retries 0 none
  else
    ([],
     match mkLLMResponseMetadata provider model none none none with
     | .error e => .error e
     | .ok md =>
       .ok { success := false, provider, model, raw_output := "", metadata := md,
             error := some { type := "provider_not_available",
                             message := "Provider " ++ provider ++ " not configured",
                             provider, retry_count := 0, recoverable := false } })

/-- `MCPRouter._parse_model_string` (`router.py` lines 297-312): split on the
first `:`; with no `:`, default to provider `openai`. -/
def parse_model_string (s : String) : String × String :=
  if ':' ∈ s.data then
    (⟨s.data.takeWhile (· ≠ ':')⟩, ⟨(s.data.dropWhile (· ≠ ':')).drop 1⟩)
  else ("openai", s)

/-- The fallback loop of `_handle_ask_model` (`router.py` lines 119-132):
iterate the chain in order, re-running `_generate_with_retry` with the same
prompt, system prompt, temperature and max_tokens; break at the first
success; the loop variable keeps the last result when every entry fails. -/
def runFallbackChain (cfg : Config) (env : RouterEnv) (prompt : String)
    (system_prompt : Option String) (temperature : Rat) (max_tokens : Option Int) :
    Nat → List String → LLMResponse → List Ev × Except PyErr LLMResponse
  | _, [], lr => ([], .ok lr)
  | n0, entry :: rest, _ =>
    let pm := parse_model_string entry
    match generate_with_retry cfg env n0 pm.1 pm.2 prompt system_prompt temperature max_tokens with
    | (tr, .error e) => (tr, .error e)
    | (tr, .ok lr2) =>
      if lr2.success then (tr, .ok lr2)
      else
        match runFallbackChain cfg env prompt system_prompt temperature max_tokens
            (n0 + ncalls tr) rest lr2 with
        | (tr2, r) => (tr ++ tr2, r)

/-- The action list of `_handle_ask_model` (`router.py` lines 135-140): a
single parsed action, else the actions of a parsed sequence, else empty. -/
def askActions (lr : LLMResponse) : List FusionAction :=
  match lr.action with
  | some a => [a]
  | none =>
    match lr.action_sequence with
    | some s => s.actions
    | none => []

/-- The response assembly of `_handle_ask_model` (`router.py` lines
134-157), continued: statuses and messages derived from the action list. -/
def buildAskResponse (lr : LLMResponse) : MCPResponse :=
  if lr.success then
    { status := if (askActions lr).isEmpty then "clarification_needed" else "success",
      llm_response := some lr,
      message := if (askActions lr).isEmpty then "Need clarification"
        else "Action generated successfully",
      actions_to_execute := askActions lr }
  else
    { status := "error", llm_response := some lr,
      message := "All providers failed: " ++
        (match lr.error with | some e => e.message | none => "Unknown error"),
      actions_to_execute := [] }

/-- The context-aware prompt of `_handle_ask_model` (`router.py` lines
100-106): a rendered summary of the design context is prepended to the
prompt text. -/
def askPrompt (cmd : MCPCommand) (p : ModelParams) : String :=
  match cmd.context with
  | none => p.prompt
  | some ctx =>
    "\nDesign Context:\n- Active Component: " ++ ctx.active_component ++
    "\n- Units: " ++ ctx.units ++ "\n- Design State: " ++ ctx.design_state ++
    "\n" ++ "\n" ++ p.prompt

/-- `MCPRouter._handle_ask_model` (`router.py` lines 83-157). -/
def handle_ask_model (cfg : Config) (env : RouterEnv) (cmd : MCPCommand)
    (system_prompt : Option String) : List Ev × Except PyErr MCPResponse :=
  match cmd.params with
  | none =>
    ([], .ok { status := "error", message := "Missing model parameters",
               actions_to_execute := [] })
  | some p =>
    let prompt := askPrompt cmd p
    match generate_with_retry cfg env 0 p.provider p.model prompt system_prompt
        p.temperature p.max_tokens with
    | (tr1, .error e) => (tr1, .error e)
    | (tr1, .ok lr0) =>
      if lr0.success = false ∧ cfg.fallback_chain ≠ [] then
        match runFallbackChain cfg env prompt system_prompt p.temperature p.max_tokens
            (ncalls tr1) cfg.fallback_chain lr0 with
        | (tr2, .error e) => (tr1 ++ tr2, .error e)
        | (tr2, .ok lr) => (tr1 ++ tr2, .ok (buildAskResponse lr))
      else (tr1, .ok (buildAskResponse lr0))

/-- Python `str` of a list of strings, as in `f"...{list(...)}"`. -/
def pyStrStrList (l : List String) : String :=
  "[" ++ String.intercalate ", " (l.map (fun s => "\x27" ++ s ++ "\x27")) ++ "]"

/-- Python `str` of the models dict assembled by `_handle_list_models`. -/
def pyStrModelsDict (l : List (String × List String)) : String :=
  "\x7b" ++ String.intercalate ", "
    (l.map (fun p => "\x27" ++ p.1 ++ "\x27: " ++ pyStrStrList p.2)) ++ "\x7d"

/-- The per-provider gathering of `_handle_list_models` (`router.py` lines
263-270): a client whose `list_models` raises is recorded as an empty list
and iteration continues. -/
def collectModels (env : RouterEnv) : List (String × List String) :=
  env.clients.map (fun p =>
    match env.list_models p with
    | .ok ms => (p, ms)
    | .error _ => (p, []))

/-- `MCPRouter._handle_list_models` (`router.py` lines 261-283).  The success
envelope embeds an `LLMResponse` whose metadata is constructed with
`provider="system"` — a string outside the `Literal` of
`LLMResponseMetadata.provider`. -/
def handle_list_models (_cfg : Config) (env : RouterEnv) :
    List Ev × Except PyErr MCPResponse :=
  let models := collectModels env
  ([],
   match mkLLMResponseMetadata "system" "list_models" none none none with
   | .error e => .error e
   | .ok md =>
     .ok { status := "success", message := "Models listed successfully",
           actions_to_execute := [],
           llm_response := some { success := true, provider := "system",
                                  model := "list_models",
                                  raw_output := pyStrModelsDict models,
                                  metadata := md } })

/-- `MCPRouter._handle_health_check` (`router.py` lines 285-295). -/
def handle_health_check (env : RouterEnv) : List Ev × Except PyErr MCPResponse :=
  ([], .ok { status := "success",
             message := "Healthy providers: " ++ pyStrStrList env.clients,
             actions_to_execute := [] })

/-- `MCPRouter.route_command` (`router.py` lines 55-81): dispatch on the
command kind. -/
def route_command (cfg : Config) (env : RouterEnv) (cmd : MCPCommand)
    (system_prompt : Option String) : List Ev × Except PyErr MCPResponse :=
  if cmd.command = "ask_model" then handle_ask_model cfg env cmd system_prompt
  else if cmd.command = "list_models" then handle_list_models cfg env
  else if cmd.command = "health_check" then handle_health_check env
  else
    ([], .ok { status := "error", message := "Unknown command: " ++ cmd.command,
               actions_to_execute := [] })

/-- The event sequence of a retry loop of `n` attempts that all fail: one
call per attempt, a sleep of `d` between consecutive attempts, and no sleep
after the final attempt. -/
def retryEvents (c : AdapterCall) (d : Rat) : Nat → List Ev
  | 0 => []
  | 1 => [.call c]
  | n + 2 => .call c :: .sleep d :: retryEvents c d (n + 1)

/-- Number of sleep events in an event list. -/
def nsleeps (tr : List Ev) : Nat :=
  tr.countP (fun e => match e with | .sleep _ => true | .call _ => false)

theorem ncalls_retryEvents (c : AdapterCall) (d : Rat) :
    ∀ n, ncalls (retryEvents c d n) = n := by
  intro n
  induction n using Nat.strong_induction_on with
  | _ n ih =>
    rcases n with _ | n
    · rfl
    rcases n with _ | m
    · rfl
    have h := ih (m + 1) (by omega)
    simp [retryEvents, ncalls, List.countP_cons] at h ⊢
    omega

theorem nsleeps_retryEvents (c : AdapterCall) (d : Rat) :
    ∀ n, nsleeps (retryEvents c d n) = n - 1 := by
  intro n
  induction n using Nat.strong_induction_on with
  | _ n ih =>
    rcases n with _ | n
    · rfl
    rcases n with _ | m
    · rfl
    have h := ih (m + 1) (by omega)
    simp [retryEvents, nsleeps, List.countP_cons] at h ⊢
    omega

theorem attemptLoop_all_fail (cfg : Config) (env : RouterEnv) (c : AdapterCall)
    (errs : Nat → String) (hlit : c.provider ∈ providerLiterals)
    (hfail : ∀ i, env.gen i c = .error (errs i)) :
    ∀ r, ∀ n0 attempt : Nat, ∀ last : Option String,
      attempt + r = cfg.max_retries → 1 ≤ r →
      attemptLoop cfg env c n0 r attempt last =
        (retryEvents c cfg.retry_delay r,
         .ok { success := false, provider := c.provider, model := c.model, raw_output := "",
               metadata := { provider := c.provider, model := c.model },
               error := some { type := "generation_failed", message := errs (n0 + r - 1),
                               provider := c.provider, retry_count := cfg.max_retries,
                               recoverable := true } }) := by
  intro r
  induction r using Nat.strong_induction_on with
  | _ r ih =>
    intro n0 attempt last htot hr
    rcases r with _ | r
    · exact absurd hr (by omega)
    rcases r with _ | m
    · rw [attemptLoop, hfail n0]
      simp only []
      rw [if_neg (by omega)]
      rw [attemptLoop]
      simp [mkGenerationFailed, mkLLMResponseMetadata, hlit, pyStrOpt, retryEvents]
    · rw [attemptLoop, hfail n0]
      simp only []
      rw [if_pos (by omega)]
      rw [ih (m + 1) (by omega) (n0 + 1) (attempt + 1) (some (errs n0)) (by omega) (by omega)]
      have hidx : n0 + 1 + (m + 1) - 1 = n0 + (m + 1 + 1) - 1 := by omega
      simp [retryEvents, hidx]

/-- Claim C2: for every configured retry count N ≥ 1 and every provider
adapter whose generate call raises on every attempt, the generate-with-retry
procedure invokes the adapter exactly N times, suspends for the configured
delay between consecutive attempts but not after the final one (the event
trace is exactly `retryEvents`: N calls with a sleep between consecutive
calls and none at the end), and returns a failed GenerationResult with error
kind `generation_failed`, recoverable = true, retry_count = N, and message
equal to the last captured error. -/
theorem retry_exhaustion (cfg : Config) (env : RouterEnv)
    (provider model prompt : String) (system_prompt : Option String)
    (temperature : Rat) (max_tokens : Option Int) (errs : Nat → String)
    (hN : 1 ≤ cfg.max_retries) (hc : provider ∈ env.clients)
    (hlit : provider ∈ providerLiterals)
    (hfail : ∀ i, env.gen i ⟨provider, model, prompt, system_prompt, temperature,
      max_tokens⟩ = .error (errs i)) :
    generate_with_retry cfg env 0 provider model prompt system_prompt temperature max_tokens =
      (retryEvents ⟨provider, model, prompt, system_prompt, temperature, max_tokens⟩
        cfg.retry_delay cfg.max_retries,
       .ok { success := false, provider, model, raw_output := "",
             metadata := { provider, model },
             error := some { type := "generation_failed",
                             message := errs (cfg.max_retries - 1),
                             provider, retry_count := cfg.max_retries,
                             recoverable := true } }) ∧
    ncalls (retryEvents ⟨provider, model, prompt, system_prompt, temperature, max_tokens⟩
      cfg.retry_delay cfg.max_retries) = cfg.max_retries ∧
    nsleeps (retryEvents ⟨provider, model, prompt, system_prompt, temperature, max_tokens⟩
      cfg.retry_delay cfg.max_retries) = cfg.max_retries - 1 := by
  refine ⟨?_, ncalls_retryEvents _ _ _, nsleeps_retryEvents _ _ _⟩
  rw [generate_with_retry, if_pos hc]
  have h := attemptLoop_all_fail cfg env
    ⟨provider, model, prompt, system_prompt, temperature, max_tokens⟩ errs hlit hfail
    cfg.max_retries 0 0 none (by omega) hN
  simpa using h

/-- Fixture: a two-client environment whose adapter calls always raise, with
the raised message recording the call index. -/
def envRetryW : RouterEnv :=
  { clients := ["ollama"], gen := fun n _ => .error ("boom" ++ toString n),
    list_models := fun _ => .ok [] }

/-- Fixture configuration for the retry witness: 3 retries, delay 2. -/
def cfgRetryW : Config := { max_retries := 3, retry_delay := 2 }

/-- The adapter call of the retry witness. -/
def cRetryW : AdapterCall :=
  { provider := "ollama", model := "m", prompt := "p", system_prompt := none,
    temperature := 1, max_tokens := none }

/-- Witness for `retry_exhaustion` at a concrete configuration: three
attempts, two sleeps, final message from the third call. -/
theorem retry_exhaustion_witness :
    generate_with_retry cfgRetryW envRetryW 0 "ollama" "m" "p" none 1 none =
      (retryEvents cRetryW cfgRetryW.retry_delay cfgRetryW.max_retries,
       .ok { success := false, provider := "ollama", model := "m", raw_output := "",
             metadata := { provider := "ollama", model := "m" },
             error := some { type := "generation_failed", message := "boom2",
                             provider := "ollama", retry_count := cfgRetryW.max_retries,
                             recoverable := true } }) ∧
    ncalls (retryEvents cRetryW cfgRetryW.retry_delay cfgRetryW.max_retries) =
      cfgRetryW.max_retries ∧
    nsleeps (retryEvents cRetryW cfgRetryW.retry_delay cfgRetryW.max_retries) =
      cfgRetryW.max_retries - 1 :=
  retry_exhaustion cfgRetryW envRetryW "ollama" "m" "p" none 1 none
    (fun n => "boom" ++ toString n) (by decide) (by decide) (by decide) (fun _ => rfl)

theorem splitFirst_spec (c : Char) : ∀ l : List Char, c ∈ l →
    l.takeWhile (· ≠ c) ++ c :: (l.dropWhile (· ≠ c)).drop 1 = l ∧
    c ∉ l.takeWhile (· ≠ c) := by
  intro l hmem
  induction l with
  | nil => cases hmem
  | cons a t ih =>
    by_cases ha : a = c
    · subst ha
      simp [List.takeWhile, List.dropWhile]
    · have hmt : c ∈ t := by
        rcases List.mem_cons.mp hmem with h | h
        · exact absurd h.symm ha
        · exact h
      have := ih hmt
      simp only [List.takeWhile, List.dropWhile]
      have hpa : decide (a ≠ c) = true := by simp [ha]
      rw [hpa]
      simp only [List.cons_append, List.cons.injEq, List.mem_cons]
      refine ⟨⟨by trivial, this.1⟩, ?_⟩
      rintro (h | h)
      · exact ha h.symm
      · exact this.2 h

/-- Claim C7: the Router parses a fallback-chain entry by splitting on the
first `:` into provider and model; an entry with no `:` is treated as
provider `openai` with the whole entry as model name. -/
theorem parse_model_string_spec (s : String) :
    (':' ∉ s.data → parse_model_string s = ("openai", s)) ∧
    (':' ∈ s.data →
      (parse_model_string s).1.data ++ ':' :: (parse_model_string s).2.data = s.data ∧
      ':' ∉ (parse_model_string s).1.data) := by
  constructor
  · intro h
    rw [parse_model_string, if_neg h]
  · intro h
    rw [parse_model_string, if_pos h]
    simpa using splitFirst_spec ':' s.data h

/-- Witness for `parse_model_string_spec`: an entry with two colons splits
at the first one; a colon-free entry defaults to provider `openai`. -/
theorem parse_model_string_witness :
    ((parse_model_string "ollama:llama3:8b").1.data ++ ':' ::
       (parse_model_string "ollama:llama3:8b").2.data = ("ollama:llama3:8b").data ∧
     ':' ∉ (parse_model_string "ollama:llama3:8b").1.data) ∧
    parse_model_string "gpt-4o-mini" = ("openai", "gpt-4o-mini") :=
  ⟨(parse_model_string_spec "ollama:llama3:8b").2 (by decide),
   (parse_model_string_spec "gpt-4o-mini").1 (by decide)⟩

/-- Claim C10: an ask_model command without model parameters is answered by
the Router itself with an error envelope (message "Missing model
parameters", no actions, no LLM response), making zero adapter calls and
raising nothing — it is absorbed, not escalated to the Transport layer. -/
theorem missing_params_absorbed (cfg : Config) (env : RouterEnv) (cmd : MCPCommand)
    (system_prompt : Option String) (hcmd : cmd.command = "ask_model")
    (hp : cmd.params = none) :
    route_command cfg env cmd system_prompt =
      ([], .ok { status := "error", message := "Missing model parameters",
                 actions_to_execute := [] }) := by
  simp [route_command, hcmd, handle_ask_model, hp]

/-- Witness for `missing_params_absorbed` at a concrete command. -/
theorem missing_params_witness :
    route_command cfgRetryW envRetryW { command := "ask_model" } none =
      ([], .ok { status := "error", message := "Missing model parameters",
                 actions_to_execute := [] }) :=
  missing_params_absorbed cfgRetryW envRetryW { command := "ask_model" } none rfl rfl

/-- Claim C4: a requested provider with no configured adapter makes
generate-with-retry immediately return a failed result with kind
`provider_not_available`, not recoverable, with zero adapter calls; and when
the fallback chain is empty, route wraps it in an `error` envelope, still
with zero adapter calls. -/
theorem provider_not_available_immediate (cfg : Config) (env : RouterEnv)
    (provider model prompt : String) (system_prompt : Option String)
    (temperature : Rat) (max_tokens : Option Int)
    (hlit : provider ∈ providerLiterals) (hnc : provider ∉ env.clients) :
    generate_with_retry cfg env 0 provider model prompt system_prompt temperature max_tokens =
      ([], .ok { success := false, provider, model, raw_output := "",
                 metadata := { provider, model },
                 error := some { type := "provider_not_available",
                                 message := "Provider " ++ provider ++ " not configured",
                                 provider, retry_count := 0, recoverable := false } }) ∧
    (∀ cmd p, cfg.fallback_chain = [] → cmd.command = "ask_model" →
      cmd.params = some p → p.provider = provider →
      (route_command cfg env cmd system_prompt).1 = [] ∧
      ∃ resp, (route_command cfg env cmd system_prompt).2 = .ok resp ∧
        resp.status = "error" ∧ resp.actions_to_execute = []) := by
  have hg : ∀ (model prompt : String) (temp : Rat) (maxTok : Option Int),
      generate_with_retry cfg env 0 provider model prompt system_prompt temp maxTok =
        ([], .ok { success := false, provider, model, raw_output := "",
                   metadata := { provider, model },
                   error := some { type := "provider_not_available",
                                   message := "Provider " ++ provider ++ " not configured",
                                   provider, retry_count := 0, recoverable := false } }) := by
    intro model prompt temp maxTok
    rw [generate_with_retry, if_neg hnc]
    simp [mkLLMResponseMetadata, hlit]
  refine ⟨hg model prompt temperature max_tokens, ?_⟩
  intro cmd p hchain hcmd hp hprov
  rw [route_command, if_pos hcmd]
  rw [handle_ask_model]
  rw [hp]
  simp only [hprov, hg p.model (askPrompt cmd p) p.temperature p.max_tokens]
  rw [if_neg (by simp [hchain])]
  refine ⟨by trivial, _, rfl, rfl, rfl⟩

/-- Witness for `provider_not_available_immediate`: provider `gemini` is
absent from a one-client environment with an empty fallback chain. -/
theorem provider_not_available_witness :
    (generate_with_retry cfgRetryW envRetryW 0 "gemini" "g" "p" none 1 none =
      ([], .ok { success := false, provider := "gemini", model := "g", raw_output := "",
                 metadata := { provider := "gemini", model := "g" },
                 error := some { type := "provider_not_available",
                                 message := "Provider gemini not configured",
                                 provider := "gemini", retry_count := 0,
                                 recoverable := false } })) ∧
    ((route_command cfgRetryW envRetryW
        { command := "ask_model",
          params := some { provider := "gemini", model := "g", prompt := "p" } } none).1 = [] ∧
     ∃ resp, (route_command cfgRetryW envRetryW
        { command := "ask_model",
          params := some { provider := "gemini", model := "g", prompt := "p" } } none).2 =
          .ok resp ∧ resp.status = "error" ∧ resp.actions_to_execute = []) := by
  have h := provider_not_available_immediate cfgRetryW envRetryW "gemini" "g" "p" none 1 none
    (by decide) (by decide)
  exact ⟨h.1,
    h.2 { command := "ask_model",
          params := some { provider := "gemini", model := "g", prompt := "p" } }
      { provider := "gemini", model := "g", prompt := "p" } rfl rfl rfl rfl⟩

/-- Fixture: configuration whose fallback chain names the unknown provider
`foo`. -/
def cfgCrashW : Config := { fallback_chain := ["foo:bar"], max_retries := 1, retry_delay := 1 }

/-- Fixture: a one-client environment whose ollama adapter always raises. -/
def envCrashW : RouterEnv :=
  { clients := ["ollama"], gen := fun _ _ => .error "connection refused",
    list_models := fun _ => .ok [] }

/-- Fixture: a well-formed ask_model command for the ollama provider. -/
def cmdCrashW : MCPCommand :=
  { command := "ask_model",
    params := some { provider := "ollama", model := "llama3", prompt := "make a box" } }

/-- The primary adapter call issued for `cmdCrashW`. -/
def cCrashW : AdapterCall :=
  { provider := "ollama", model := "llama3", prompt := "make a box",
    system_prompt := some "sys", temperature := 7 / 10, max_tokens := some 2000 }

/-- Claim C1 (code bug): a fallback-chain entry naming a provider outside
the four `Literal` names does NOT degrade gracefully — after the primary
attempt fails, `_generate_with_retry` enters its unconfigured-provider
branch and constructs `LLMResponseMetadata(provider="foo")`, whose pydantic
validation raises, so `route` lets a `ValidationError` escape instead of
returning an envelope. -/
theorem malformed_fallback_entry_crashes :
    route_command cfgCrashW envCrashW cmdCrashW (some "sys") =
      ([.call cCrashW], .error (.validationError "LLMResponseMetadata.provider: foo")) := rfl

/-- Fixture: default configuration for the list-models scenario. -/
def cfgListW : Config := {}

/-- Fixture: three clients of which `openai` raises during `list_models`. -/
def envListW : RouterEnv :=
  { clients := ["ollama", "openai", "claude"], gen := fun _ _ => .error "x",
    list_models := fun p => if p = "openai" then .error "api down" else .ok [p ++ "-m"] }

/-- Fixture: a list_models command. -/
def cmdListW : MCPCommand := { command := "list_models" }

/-- Claim C8 (code bug): the per-provider gathering does record an empty
list for the raising provider and keeps the other providers populated — but
the success envelope is never returned, because `_handle_list_models`
constructs `LLMResponseMetadata(provider="system")`, a string outside the
`Literal`, so every list-models command raises a `ValidationError` instead
of returning the assembled success envelope. -/
theorem list_models_envelope_crashes :
    collectModels envListW = [("ollama", ["ollama-m"]), ("openai", []), ("claude", ["claude-m"])] ∧
    route_command cfgListW envListW cmdListW none =
      ([], .error (.validationError "LLMResponseMetadata.provider: system")) :=
  ⟨rfl, rfl⟩

theorem buildAskResponse_prop (lr : LLMResponse) :
    (buildAskResponse lr).llm_response = some lr ∧
    (lr.success = false → (buildAskResponse lr).status = "error") ∧
    (lr.success = true →
      ((buildAskResponse lr).actions_to_execute = [] →
        (buildAskResponse lr).status = "clarification_needed") ∧
      ((buildAskResponse lr).actions_to_execute ≠ [] →
        (buildAskResponse lr).status = "success")) ∧
    ((buildAskResponse lr).actions_to_execute ≠ [] →
      (buildAskResponse lr).status = "success") := by
  rcases hs : lr.success with _ | _
  · refine ⟨by simp [buildAskResponse, hs], fun _ => by simp [buildAskResponse, hs],
      fun htrue => absurd htrue (by decide), fun hne => absurd ?_ hne⟩
    simp [buildAskResponse, hs]
  · have hact : (buildAskResponse lr).actions_to_execute = askActions lr := by
      simp [buildAskResponse, hs]
    have hstat : (buildAskResponse lr).status =
        (if (askActions lr).isEmpty then "clarification_needed" else "success") := by
      simp [buildAskResponse, hs]
    refine ⟨by simp [buildAskResponse, hs], fun hfalse => absurd hfalse (by decide),
      fun _ => ⟨?_, ?_⟩, ?_⟩
    · intro hempty
      rw [hact] at hempty
      rw [hstat, hempty]
      rfl
    · intro hne
      rw [hact] at hne
      rw [hstat, if_neg (by simpa [List.isEmpty_iff] using hne)]
    · intro hne
      rw [hact] at hne
      rw [hstat, if_neg (by simpa [List.isEmpty_iff] using hne)]

/-- Claim C6: for every ask_model command that yields an envelope, a failed
chosen GenerationResult gives status `error`; a successful one with zero
derived actions gives `clarification_needed`; a successful one with at least
one action gives `success`; and `actions_to_execute` is non-empty only under
status `success`. -/
theorem status_mapping (cfg : Config) (env : RouterEnv) (cmd : MCPCommand)
    (system_prompt : Option String) (tr : List Ev) (resp : MCPResponse)
    (hcmd : cmd.command = "ask_model")
    (h : route_command cfg env cmd system_prompt = (tr, .ok resp)) :
    (∀ lr, resp.llm_response = some lr →
      (lr.success = false → resp.status = "error") ∧
      (lr.success = true →
        (resp.actions_to_execute = [] → resp.status = "clarification_needed") ∧
        (resp.actions_to_execute ≠ [] → resp.status = "success"))) ∧
    (resp.actions_to_execute ≠ [] → resp.status = "success") := by
  have final : ∀ lr : LLMResponse,
      (∀ lr2, (buildAskResponse lr).llm_response = some lr2 →
        (lr2.success = false → (buildAskResponse lr).status = "error") ∧
        (lr2.success = true →
          ((buildAskResponse lr).actions_to_execute = [] →
            (buildAskResponse lr).status = "clarification_needed") ∧
          ((buildAskResponse lr).actions_to_execute ≠ [] →
            (buildAskResponse lr).status = "success"))) ∧
      ((buildAskResponse lr).actions_to_execute ≠ [] →
        (buildAskResponse lr).status = "success") := by
    intro lr
    have hb := buildAskResponse_prop lr
    refine ⟨fun lr2 hlr2 => ?_, hb.2.2.2⟩
    rw [hb.1] at hlr2
    injection hlr2 with hlr2
    subst hlr2
    exact ⟨hb.2.1, hb.2.2.1⟩
  rw [route_command, if_pos hcmd, handle_ask_model] at h
  rcases hp : cmd.params with _ | p <;> rw [hp] at h
  · simp only [Prod.mk.injEq, Except.ok.injEq] at h
    obtain ⟨-, h2⟩ := h
    subst h2
    constructor
    · intro lr hlr
      simp at hlr
    · intro hne
      simp at hne
  · simp only [] at h
    rcases hg : generate_with_retry cfg env 0 p.provider p.model (askPrompt cmd p)
        system_prompt p.temperature p.max_tokens with ⟨tr1, r1⟩
    rw [hg] at h
    rcases r1 with e | lr0
    · simp at h
    · simp only [] at h
      split_ifs at h with hcond
      · rcases hrf : runFallbackChain cfg env (askPrompt cmd p) system_prompt p.temperature
            p.max_tokens (ncalls tr1) cfg.fallback_chain lr0 with ⟨tr2, r2⟩
        rw [hrf] at h
        rcases r2 with e | lr
        · simp at h
        · simp only [Prod.mk.injEq, Except.ok.injEq] at h
          obtain ⟨-, h2⟩ := h
          subst h2
          exact final lr
      · simp only [Prod.mk.injEq, Except.ok.injEq] at h
        obtain ⟨-, h2⟩ := h
        subst h2
        exact final lr0

/-- One fallback-chain step, exactly as `_handle_ask_model` issues it: parse
the entry and re-run generate-with-retry with the SAME prompt, system
prompt, temperature and max_tokens as the primary attempt. -/
def chainStep (cfg : Config) (env : RouterEnv) (prompt : String)
    (system_prompt : Option String) (temperature : Rat) (max_tokens : Option Int)
    (entry : String) (n0 : Nat) : List Ev × Except PyErr LLMResponse :=
  generate_with_retry cfg env n0 (parse_model_string entry).1 (parse_model_string entry).2
    prompt system_prompt temperature max_tokens

/-- Stated from the spec's words (section 4.3 step 3): the chain is iterated
in declared order; each entry runs the generate-with-retry step; iteration
stops at the first entry whose result has success = true, and when every
entry fails the final entry's failed result is kept. -/
inductive FallbackOutcome (step : String → Nat → List Ev × Except PyErr LLMResponse) :
    Nat → List String → LLMResponse → List Ev → LLMResponse → Prop where
  | exhausted (n0 : Nat) (lr : LLMResponse) : FallbackOutcome step n0 [] lr [] lr
  | firstSuccess (n0 : Nat) (e : String) (rest : List String) (lr lr2 : LLMResponse)
      (tr : List Ev) : step e n0 = (tr, .ok lr2) → lr2.success = true →
      FallbackOutcome step n0 (e :: rest) lr tr lr2
  | keepFailure (n0 : Nat) (e : String) (rest : List String) (lr lr2 lrF : LLMResponse)
      (tr tr2 : List Ev) : step e n0 = (tr, .ok lr2) → lr2.success = false →
      FallbackOutcome step (n0 + ncalls tr) rest lr2 tr2 lrF →
      FallbackOutcome step n0 (e :: rest) lr (tr ++ tr2) lrF

/-- An event issued with the same prompt, system prompt, temperature and
max output tokens (sleeps carry no arguments). -/
def callArgsMatch (prompt : String) (system_prompt : Option String) (temperature : Rat)
    (max_tokens : Option Int) : Ev → Prop
  | .call c => c.prompt = prompt ∧ c.system_prompt = system_prompt ∧
      c.temperature = temperature ∧ c.max_tokens = max_tokens
  | .sleep _ => True

/-- The `generation_failed` response value produced after the retry loop
exhausts, for a provider within the metadata `Literal`. -/
def generationFailedResponse (cfg : Config) (c : AdapterCall) (last : Option String) :
    LLMResponse :=
  { success := false, provider := c.provider, model := c.model, raw_output := "",
    metadata := { provider := c.provider, model := c.model },
    error := some { type := "generation_failed", message := pyStrOpt last,
                    provider := c.provider, retry_count := cfg.max_retries,
                    recoverable := true } }

/-- The `provider_not_available` response value, for a provider within the
metadata `Literal`. -/
def providerNotAvailableResponse (provider model : String) : LLMResponse :=
  { success := false, provider, model, raw_output := "",
    metadata := { provider, model },
    error := some { type := "provider_not_available",
                    message := "Provider " ++ provider ++ " not configured",
                    provider, retry_count := 0, recoverable := false } }

theorem attemptLoop_ok (cfg : Config) (env : RouterEnv) (c : AdapterCall)
    (hlit : c.provider ∈ providerLiterals) :
    ∀ r n0 attempt : Nat, ∀ last : Option String,
      ∃ tr lr, attemptLoop cfg env c n0 r attempt last = (tr, .ok lr) ∧
        ∀ ev ∈ tr, ev = .call c ∨ ev = .sleep cfg.retry_delay := by
  intro r
  induction r with
  | zero =>
    intro n0 attempt last
    refine ⟨[], generationFailedResponse cfg c last, ?_,
      fun ev h => absurd h (List.not_mem_nil ev)⟩
    rw [attemptLoop]
    simp [mkGenerationFailed, mkLLMResponseMetadata, hlit, generationFailedResponse]
  | succ r ih =>
    intro n0 attempt last
    rw [attemptLoop]
    cases hgen : env.gen n0 c with
    | ok result =>
      simp only []
      cases hmd : mkLLMResponseMetadata result.provider result.model result.tokens_used
          result.latency_ms (some c.temperature) with
      | ok md =>
        simp only []
        refine ⟨[.call c], _, rfl, ?_⟩
        intro ev h
        rcases List.mem_singleton.mp h with rfl
        exact Or.inl rfl
      | error e =>
        simp only []
        obtain ⟨tr, lr, heq, hmem⟩ := ih (n0 + 1) (attempt + 1) (some (pyErrMsg e))
        by_cases hif : attempt < cfg.max_retries - 1
        · rw [if_pos hif, heq]
          refine ⟨.call c :: .sleep cfg.retry_delay :: tr, lr, rfl, ?_⟩
          intro ev h
          rcases List.mem_cons.mp h with rfl | h
          · exact Or.inl rfl
          rcases List.mem_cons.mp h with rfl | h
          · exact Or.inr rfl
          · exact hmem ev h
        · rw [if_neg hif, heq]
          refine ⟨.call c :: tr, lr, rfl, ?_⟩
          intro ev h
          rcases List.mem_cons.mp h with rfl | h
          · exact Or.inl rfl
          · exact hmem ev h
    | error msg =>
      simp only []
      obtain ⟨tr, lr, heq, hmem⟩ := ih (n0 + 1) (attempt + 1) (some msg)
      by_cases hif : attempt < cfg.max_retries - 1
      · rw [if_pos hif, heq]
        refine ⟨.call c :: .sleep cfg.retry_delay :: tr, lr, rfl, ?_⟩
        intro ev h
        rcases List.mem_cons.mp h with rfl | h
        · exact Or.inl rfl
        rcases List.mem_cons.mp h with rfl | h
        · exact Or.inr rfl
        · exact hmem ev h
      · rw [if_neg hif, heq]
        refine ⟨.call c :: tr, lr, rfl, ?_⟩
        intro ev h
        rcases List.mem_cons.mp h with rfl | h
        · exact Or.inl rfl
        · exact hmem ev h

theorem generate_with_retry_ok (cfg : Config) (env : RouterEnv)
    (provider model prompt : String) (system_prompt : Option String)
    (temperature : Rat) (max_tokens : Option Int) (n0 : Nat)
    (hlit : provider ∈ providerLiterals) :
    ∃ tr lr, generate_with_retry cfg env n0 provider model prompt system_prompt
        temperature max_tokens = (tr, .ok lr) ∧
      ∀ ev ∈ tr, ev = .call ⟨provider, model, prompt, system_prompt, temperature, max_tokens⟩ ∨
        ev = .sleep cfg.retry_delay := by
  rw [generate_with_retry]
  by_cases hc : provider ∈ env.clients
  · rw [if_pos hc]
    exact attemptLoop_ok cfg env _ hlit cfg.max_retries n0 0 none
  · rw [if_neg hc]
    refine ⟨[], providerNotAvailableResponse provider model, ?_,
      fun ev h => absurd h (List.not_mem_nil ev)⟩
    simp [mkLLMResponseMetadata, hlit, providerNotAvailableResponse]

theorem runFallbackChain_ok (cfg : Config) (env : RouterEnv) (prompt : String)
    (system_prompt : Option String) (temperature : Rat) (max_tokens : Option Int) :
    ∀ entries : List String, ∀ n0 : Nat, ∀ lrIn : LLMResponse,
      (∀ e ∈ entries, (parse_model_string e).1 ∈ providerLiterals) →
      ∃ tr lrF, runFallbackChain cfg env prompt system_prompt temperature max_tokens
          n0 entries lrIn = (tr, .ok lrF) ∧
        FallbackOutcome (chainStep cfg env prompt system_prompt temperature max_tokens)
          n0 entries lrIn tr lrF ∧
        ∀ ev ∈ tr, callArgsMatch prompt system_prompt temperature max_tokens ev := by
  intro entries
  induction entries with
  | nil =>
    intro n0 lrIn _
    exact ⟨[], lrIn, rfl, .exhausted n0 lrIn, fun ev h => absurd h (List.not_mem_nil ev)⟩
  | cons e rest ih =>
    intro n0 lrIn hsafe
    obtain ⟨tr, lr2, heq, hmem⟩ := generate_with_retry_ok cfg env (parse_model_string e).1
      (parse_model_string e).2 prompt system_prompt temperature max_tokens n0
      (hsafe e (List.mem_cons_self e rest))
    have hargs : ∀ ev ∈ tr, callArgsMatch prompt system_prompt temperature max_tokens ev := by
      intro ev h
      rcases hmem ev h with rfl | rfl
      · exact ⟨rfl, rfl, rfl, rfl⟩
      · trivial
    rw [runFallbackChain]
    simp only []
    rw [heq]
    simp only []
    by_cases hs : lr2.success = true
    · refine ⟨tr, lr2, ?_, .firstSuccess n0 e rest lrIn lr2 tr heq hs, hargs⟩
      rw [if_pos hs]
    · have hs2 : lr2.success = false := by
        rwa [Bool.not_eq_true] at hs
      obtain ⟨tr2, lrF, heq2, hout, hargs2⟩ :=
        ih (n0 + ncalls tr) lr2 (fun e2 h2 => hsafe e2 (List.mem_cons_of_mem e h2))
      refine ⟨tr ++ tr2, lrF, ?_, .keepFailure n0 e rest lrIn lr2 lrF tr tr2 heq hs2 hout, ?_⟩
      · rw [if_neg hs, heq2]
      · intro ev h
        rcases List.mem_append.mp h with h | h
        · exact hargs ev h
        · exact hargs2 ev h

/-- Fixture: a chain whose first entry names the unknown provider `foo` and
whose second entry names the configured, succeeding provider `claude`. -/
def cfgOrderX : Config :=
  { fallback_chain := ["foo:bar", "claude:sonnet"], max_retries := 1, retry_delay := 1 }

/-- Fixture: a successful claude generation dict carrying a parseable
single-action payload. -/
def gdFallW : GenDict :=
  { provider := "claude", model := "sonnet", output := "ok",
    json := some (.obj [("action", .str "create_box"), ("params", .obj [])]),
    tokens_used := some 5, latency_ms := some 100 }

/-- Fixture: an environment where every ollama call raises and every claude
call succeeds. -/
def envOrderX : RouterEnv :=
  { clients := ["ollama", "claude"],
    gen := fun _ c => if c.provider = "claude" then .ok gdFallW else .error "down",
    list_models := fun _ => .ok [] }

/-- Fixture: an ask_model command requesting the ollama provider. -/
def cmdFallW : MCPCommand :=
  { command := "ask_model",
    params := some { provider := "ollama", model := "llama3", prompt := "p" } }

/-- Counterexample to claim C3 as stated: with fallback chain
`["foo:bar", "claude:sonnet"]` and a failing primary, route raises (returns
no envelope at all) and the second chain entry is never attempted — claude
is not tried before overall failure, and no envelope reports any
provider. -/
theorem fallback_as_stated_counterexample :
    (route_command cfgOrderX envOrderX cmdFallW none).2 =
      .error (.validationError "LLMResponseMetadata.provider: foo") ∧
    (route_command cfgOrderX envOrderX cmdFallW none).1.countP
      (fun e => match e with | .call c => c.provider == "claude" | .sleep _ => false) = 0 :=
  ⟨rfl, rfl⟩

/-- Claim C3 (amended): provided every fallback-chain entry's provider
prefix is one of the four recognized provider names (otherwise the
metadata-validation bug raises and no envelope is returned, see the
counterexample), when the primary attempt fails and the chain is non-empty
the Router repeats generate-with-retry for each chain entry in declared
order with the same prompt, system prompt, temperature and max_tokens,
stops at the first entry whose result has success = true, keeps the final
entry's failed result when every entry fails, and the returned envelope
carries the GenerationResult that actually produced the outcome. -/
theorem fallback_chain_amended (cfg : Config) (env : RouterEnv) (cmd : MCPCommand)
    (p : ModelParams) (system_prompt : Option String) (tr1 : List Ev) (lr0 : LLMResponse)
    (hcmd : cmd.command = "ask_model") (hp : cmd.params = some p)
    (hchain : cfg.fallback_chain ≠ [])
    (hsafe : ∀ e ∈ cfg.fallback_chain, (parse_model_string e).1 ∈ providerLiterals)
    (hprim : generate_with_retry cfg env 0 p.provider p.model (askPrompt cmd p)
      system_prompt p.temperature p.max_tokens = (tr1, .ok lr0))
    (hfail : lr0.success = false) :
    ∃ tr2 lrF,
      runFallbackChain cfg env (askPrompt cmd p) system_prompt p.temperature p.max_tokens
        (ncalls tr1) cfg.fallback_chain lr0 = (tr2, .ok lrF) ∧
      FallbackOutcome (chainStep cfg env (askPrompt cmd p) system_prompt p.temperature
        p.max_tokens) (ncalls tr1) cfg.fallback_chain lr0 tr2 lrF ∧
      (∀ ev ∈ tr2, callArgsMatch (askPrompt cmd p) system_prompt p.temperature
        p.max_tokens ev) ∧
      route_command cfg env cmd system_prompt = (tr1 ++ tr2, .ok (buildAskResponse lrF)) ∧
      (buildAskResponse lrF).llm_response = some lrF := by
  obtain ⟨tr2, lrF, heq2, hout, hargs⟩ := runFallbackChain_ok cfg env (askPrompt cmd p)
    system_prompt p.temperature p.max_tokens cfg.fallback_chain (ncalls tr1) lr0 hsafe
  refine ⟨tr2, lrF, heq2, hout, hargs, ?_, (buildAskResponse_prop lrF).1⟩
  rw [route_command, if_pos hcmd, handle_ask_model, hp]
  simp only []
  rw [hprim]
  simp only []
  rw [if_pos ⟨hfail, hchain⟩, heq2]

/-- Fixture: configuration with the single well-formed fallback entry
`claude:sonnet`. -/
def cfgFallW : Config :=
  { fallback_chain := ["claude:sonnet"], max_retries := 1, retry_delay := 1 }

/-- Fixture: the first adapter call (the primary, ollama) raises; every
later call succeeds as claude. -/
def envFallW : RouterEnv :=
  { clients := ["ollama", "claude"],
    gen := fun n _ => if n = 0 then .error "down" else .ok gdFallW,
    list_models := fun _ => .ok [] }

/-- The primary adapter call issued for `cmdFallW`. -/
def cOFallW : AdapterCall :=
  { provider := "ollama", model := "llama3", prompt := "p", system_prompt := none,
    temperature := 7 / 10, max_tokens := some 2000 }

/-- The failed primary result in the fallback witness scenario. -/
def lr0FallW : LLMResponse := generationFailedResponse cfgFallW cOFallW (some "down")

/-- Witness for `fallback_chain_amended`: the primary ollama attempt fails,
the single chain entry claude succeeds, and the envelope reports provider
`claude`, not the requested `ollama`. -/
theorem fallback_chain_witness :
    (∃ tr2 lrF,
      runFallbackChain cfgFallW envFallW (askPrompt cmdFallW
          { provider := "ollama", model := "llama3", prompt := "p" }) none (7 / 10)
          (some 2000) (ncalls [.call cOFallW]) cfgFallW.fallback_chain lr0FallW =
        (tr2, .ok lrF) ∧
      FallbackOutcome (chainStep cfgFallW envFallW (askPrompt cmdFallW
          { provider := "ollama", model := "llama3", prompt := "p" }) none (7 / 10)
          (some 2000)) (ncalls [.call cOFallW]) cfgFallW.fallback_chain lr0FallW tr2 lrF ∧
      (∀ ev ∈ tr2, callArgsMatch (askPrompt cmdFallW
          { provider := "ollama", model := "llama3", prompt := "p" }) none (7 / 10)
          (some 2000) ev) ∧
      route_command cfgFallW envFallW cmdFallW none =
        ([.call cOFallW] ++ tr2, .ok (buildAskResponse lrF)) ∧
      (buildAskResponse lrF).llm_response = some lrF) ∧
    ((route_command cfgFallW envFallW cmdFallW none).2.map
      (fun r => r.llm_response.map LLMResponse.provider) = .ok (some "claude")) :=
  ⟨fallback_chain_amended cfgFallW envFallW cmdFallW
      { provider := "ollama", model := "llama3", prompt := "p" } none
      [.call cOFallW] lr0FallW rfl rfl (by simp [cfgFallW]) (by decide) rfl rfl,
   rfl⟩

/-- The action parsed from the claude payload in the witness scenario. -/
def actFallW : FusionAction := { action := "create_box", params := [] }

/-- The fallback (claude) adapter call in the witness scenario. -/
def cCFallW : AdapterCall :=
  { provider := "claude", model := "sonnet", prompt := "p", system_prompt := none,
    temperature := 7 / 10, max_tokens := some 2000 }

/-- The successful claude result in the witness scenario. -/
def lrFFallW : LLMResponse :=
  { success := true, provider := "claude", model := "sonnet", raw_output := "ok",
    action := some actFallW,
    metadata := { provider := "claude", model := "sonnet", tokens_used := some 5,
                  latency_ms := some 100, temperature := some (7 / 10) } }

/-- The envelope route returns in the witness scenario. -/
def respFallW : MCPResponse :=
  { status := "success", llm_response := some lrFFallW,
    message := "Action generated successfully", actions_to_execute := [actFallW] }

/-- Witness for `status_mapping` at a concrete envelope: a successful
generation with one derived action yields status `success` with that action
listed. -/
theorem status_mapping_witness :
    (∀ lr, respFallW.llm_response = some lr →
      (lr.success = false → respFallW.status = "error") ∧
      (lr.success = true →
        (respFallW.actions_to_execute = [] → respFallW.status = "clarification_needed") ∧
        (respFallW.actions_to_execute ≠ [] → respFallW.status = "success"))) ∧
    (respFallW.actions_to_execute ≠ [] → respFallW.status = "success") :=
  status_mapping cfgFallW envFallW cmdFallW none [.call cOFallW, .call cCFallW]
    respFallW rfl rfl

/-- Counterexample to claim C5 as stated: (1) the Ollama extractor does NOT
try the whole text first — on a text that is a JSON array containing an
object, it returns the brace-delimited object where the whole-first order
returns the array; (2) a raw text with no braces does not always yield an
absent payload — a bare number parses in the whole-text stage of both
variants. -/
theorem payload_parse_counterexample :
    ollama_parse_json "[\x22x\x22,\x7b\x22a\x22:1\x7d]" ≠
      specTwoStageParse "[\x22x\x22,\x7b\x22a\x22:1\x7d]" ∧
    ollama_parse_json "123" = some (.num 123) ∧
    openai_parse_json "123" = some (.num 123) := by
  refine ⟨?_, rfl, rfl⟩
  rw [show ollama_parse_json "[\x22x\x22,\x7b\x22a\x22:1\x7d]" =
    some (.obj [("a", .num 1)]) from rfl]
  rw [show specTwoStageParse "[\x22x\x22,\x7b\x22a\x22:1\x7d]" =
    some (.arr [.str "x", .obj [("a", .num 1)]]) from rfl]
  intro h
  injection h with h2
  exact Json.noConfusion h2

/-- Claim C5 (amended): the OpenAI-style extractors (also Gemini's and
Claude's) attempt the whole text first and the first-brace-to-last-brace
substring second; the Ollama extractor attempts the substring stage first
and the whole text second; when both stages fail the payload is absent —
and this absence is an ordinary value, never a raised error; a brace-free
text can still produce a payload when the whole text itself parses. -/
theorem payload_parse_amended (text : String) :
    openai_parse_json text = specTwoStageParse text ∧
    ollama_parse_json text = specSubstringFirstParse text ∧
    (json_loads text = none →
      (∀ sub, braceSubstring text.data = some sub → json_loads ⟨sub⟩ = none) →
      ollama_parse_json text = none ∧ openai_parse_json text = none) := by
  refine ⟨rfl, rfl, ?_⟩
  intro h1 h2
  cases hb : braceSubstring text.data with
  | none => exact ⟨by simp [ollama_parse_json, hb, h1], by simp [openai_parse_json, hb, h1]⟩
  | some sub =>
    have h3 := h2 sub hb
    exact ⟨by simp [ollama_parse_json, hb, h1, h3], by simp [openai_parse_json, hb, h1, h3]⟩

/-- Witness for `payload_parse_amended`: a plain-prose text (no braces, not
JSON) yields an absent payload from both extractors. -/
theorem payload_parse_witness :
    ollama_parse_json "this is not json" = none ∧
    openai_parse_json "this is not json" = none :=
  (payload_parse_amended "this is not json").2.2 rfl
    (fun _sub h => by
      rw [show braceSubstring ("this is not json").data = none from rfl] at h
      exact Option.noConfusion h)

theorem strListOfJson_map (l : List String) : strListOfJson (l.map .str) = .ok l := by
  induction l with
  | nil => rfl
  | cons s t ih => simp [strListOfJson, ih]

theorem validate_toJson (a : FusionAction) :
    FusionAction.validate [("action", .str a.action), ("params", .obj a.params),
      ("explanation", optStrJson a.explanation),
      ("safety_checks", .arr (a.safety_checks.map .str)),
      ("dependencies", .arr (a.dependencies.map .str))] = .ok a := by
  obtain ⟨act, params, expl, sc, dep⟩ := a
  cases expl <;>
    simp [FusionAction.validate, jLookup, explanationField, strListField, optStrJson,
      strListOfJson_map]

theorem actionsOfJson_map (l : List FusionAction) :
    actionsOfJson (l.map FusionAction.toJson) = .ok l := by
  induction l with
  | nil => rfl
  | cons a t ih => simp [FusionAction.toJson, actionsOfJson, validate_toJson, ih]

theorem sequence_fromJson_toJson (s : ActionSequence) :
    ActionSequence.fromJson (ActionSequence.toJson s) = .ok s := by
  obtain ⟨acts, total, est⟩ := s
  cases est <;>
    simp [ActionSequence.toJson, ActionSequence.fromJson, ActionSequence.validate,
      jLookup, actionsOfJson_map, optRatJson, estField, Rat.den_intCast, Rat.num_intCast]

/-- Claim C9: an ActionSequence built from total_steps = 2 and exactly two
Actions, serialized and re-parsed, yields the same two Actions in the same
order (the whole sequence round-trips). -/
theorem actionsequence_roundtrip (a1 a2 : FusionAction) (est : Option Rat) :
    ActionSequence.fromJson (ActionSequence.toJson
      { actions := [a1, a2], total_steps := 2, estimated_time_seconds := est }) =
      .ok { actions := [a1, a2], total_steps := 2, estimated_time_seconds := est } :=
  sequence_fromJson_toJson _
